import Mathlib

/-!
Shallow embedding of the QRmenu order and verification workflow.

Monetary values are modelled as rationals (ℚ): the source performs all money
arithmetic on Python `Decimal`, which is exact for the additions,
multiplications and divisions by 100 that occur here, so ℚ is a faithful
model.  Timestamps (`timezone.now()`) are modelled as abstract `Nat` instants
passed explicitly; nullable datetime columns become `Option Nat`.  Blank
`CharField`/`TextField` columns are empty strings, matching Python truthiness
tests (`if not self.order_number`).
-/

namespace QRmenu

/-- Order statuses, from `Order.STATUS_CHOICES` in `orders/models.py`. -/
inductive OrderStatus where
  | pending
  | confirmed
  | preparing
  | ready
  | completed
  | cancelled
deriving DecidableEq, Repr

/-- The mutable columns of an `Order` row that the order operations read or
write (`orders/models.py`).  `qr_data_of_restaurant` carries the parent
restaurant's `qr_data`, needed by `Order.save`. -/
structure Order where
  order_number : String
  qr_data : String
  status : OrderStatus
  subtotal : ℚ
  tax_amount : ℚ
  service_amount : ℚ
  total_amount : ℚ
  payment_method : String
  is_paid : Bool
  paid_at : Option Nat
  confirmed_at : Option Nat
  completed_at : Option Nat
  cancelled_at : Option Nat
  special_requests : String
deriving DecidableEq, Repr

/-- `Order.update_status` (orders/models.py lines 276-293).  The source sets
`self.status = new_status` unconditionally, then walks an `if`/`elif` chain to
stamp `confirmed_at`, `completed_at` or `cancelled_at`, and saves with
`update_fields` limited to the status and the three timestamp columns. -/
def Order.update_status (o : Order) (new_status : OrderStatus) (now : Nat) : Order :=
  if new_status = .confirmed ∧ o.status = .pending then
    { o with status := new_status, confirmed_at := some now }
  else if new_status = .completed then
    { o with status := new_status, completed_at := some now }
  else if new_status = .cancelled then
    { o with status := new_status, cancelled_at := some now }
  else
    { o with status := new_status }

/-- `Order.mark_as_paid` (orders/models.py lines 295-303).  `payment_method`
is only written when the argument is truthy (a non-empty string). -/
def Order.mark_as_paid (o : Order) (payment_method : String) (now : Nat) : Order :=
  if payment_method ≠ "" then
    { o with is_paid := true, paid_at := some now, payment_method := payment_method }
  else
    { o with is_paid := true, paid_at := some now }

/-- `Order.save` (orders/models.py lines 203-214).  The freshly generated
order number and the restaurant's `qr_data` are passed in explicitly; each is
used only when the corresponding field is blank. -/
def Order.save (o : Order) (generated_number : String) (restaurant_qr_data : String) : Order :=
  if o.order_number = "" then
    if o.qr_data = "" then
      { o with order_number := generated_number, qr_data := restaurant_qr_data }
    else
      { o with order_number := generated_number }
  else
    if o.qr_data = "" then
      { o with qr_data := restaurant_qr_data }
    else
      o

/-- Result dictionary of `calculate_order_total` (core/utils.py lines 217-246). -/
structure PricingResult where
  subtotal : ℚ
  tax_rate : ℚ
  tax_amount : ℚ
  service_charge : ℚ
  service_amount : ℚ
  total : ℚ
deriving DecidableEq, Repr

/-- `calculate_order_total` (core/utils.py lines 217-246), on exact decimals. -/
def calculate_order_total (subtotal : ℚ) (tax_rate : ℚ) (service_charge : ℚ) : PricingResult :=
  let tax_amount := subtotal * (tax_rate / 100)
  let service_amount := subtotal * (service_charge / 100)
  { subtotal := subtotal
    tax_rate := tax_rate
    tax_amount := tax_amount
    service_charge := service_charge
    service_amount := service_amount
    total := subtotal + tax_amount + service_amount }

/-- A `DishOption` row (menu/models.py lines 360-416): the fields read by the
order-item price computations. -/
structure DishOption where
  id : Nat
  name : String
  price_modifier : ℚ
deriving DecidableEq, Repr

/-- One entry of `OrderItem.selected_options`, the JSON snapshot written by
`OrderItem.create_from_dish` (orders/models.py lines 451-476):
`{id, name, price_modifier}`. -/
structure SelectedOption where
  id : Nat
  name : String
  price_modifier : ℚ
deriving DecidableEq, Repr

/-- The columns of an `OrderItem` row used by its price computations
(orders/models.py lines 324-427). -/
structure OrderItem where
  quantity : Nat
  unit_price : ℚ
  selected_options : List SelectedOption
deriving DecidableEq, Repr

/-- `OrderItem.get_options_price` (orders/models.py lines 405-420).  The
source builds a dict of the dish's CURRENT options (`self.dish.options.all()`,
keyed by primary key, hence unique ids) and, for each snapshot entry whose id
is present in that dict, adds the option's current `price_modifier`; snapshot
entries whose id no longer exists contribute nothing.  `dish_options` is the
dish's current option list. -/
def OrderItem.get_options_price (item : OrderItem) (dish_options : List DishOption) : ℚ :=
  (item.selected_options.map (fun sel =>
    match dish_options.find? (fun opt => opt.id = sel.id) with
    | some opt => opt.price_modifier
    | none => 0)).sum

/-- `OrderItem.get_total_price` (orders/models.py lines 422-427):
`(unit_price + options price) * quantity`. -/
def OrderItem.get_total_price (item : OrderItem) (dish_options : List DishOption) : ℚ :=
  (item.unit_price + item.get_options_price dish_options) * item.quantity

/-- Verification statuses, from `RestaurantVerification.STATUS_CHOICES`
(verification/models.py lines 11-16). -/
inductive VerificationStatus where
  | pending
  | approved
  | rejected
  | requires_changes
deriving DecidableEq, Repr

/-- The columns of a `RestaurantVerification` row read or written by the
workflow operations (verification/models.py). -/
structure Verification where
  restaurant_name : String
  address : String
  phone : String
  email : String
  description : String
  status : VerificationStatus
  admin_comment : String
  reviewed_at : Option Nat
deriving DecidableEq, Repr

/-- A `RestaurantProfile` row as created by `approve()`
(restaurants/models.py lines 9-60, verification/models.py lines 137-145).
`user_id` is the owning user; the table carries a one-to-one (unique)
constraint on it. -/
structure RestaurantProfile where
  user_id : Nat
  name : String
  description : String
  address : String
  phone : String
  email : String
deriving DecidableEq, Repr

/-- The persistent state touched by `RestaurantVerification.approve`: the
verification row, its user (email and `is_restaurant_owner` flag), the
`RestaurantProfile` table and the set of restaurant ids that own a
`RestaurantSettings` row (settings are created with defaults only, so the
owning profile's position in `profiles` identifies them). -/
structure World where
  verification : Verification
  user_id : Nat
  user_email : String
  is_restaurant_owner : Bool
  profiles : List RestaurantProfile
  settings_for : List Nat
deriving DecidableEq, Repr

/-- Errors surfaced by the approval flow.  `alreadyProvisioned` is the error
the specification names; the source never defines or raises it.
`integrityError` is the database error raised when
`RestaurantProfile.objects.create` violates the unique (one-to-one)
constraint on `RestaurantProfile.user`. -/
inductive ApproveError where
  | alreadyProvisioned
  | integrityError
deriving DecidableEq, Repr

/-- `RestaurantVerification.approve` (verification/models.py lines 125-154).
The source runs outside any `transaction.atomic` block, so each `save()` /
`create()` commits on its own: step one writes and commits the status,
`reviewed_at` and `admin_comment`; step two creates the profile, which the
database refuses (IntegrityError) when a profile for the user already exists.
The returned `World` is the state that persists even when an error is
raised — after a failure the step-one writes remain. -/
def approve (w : World) (admin_comment : String) (now : Nat) : World × Option ApproveError :=
  let v' := { w.verification with
    status := VerificationStatus.approved
    reviewed_at := some now
    admin_comment := admin_comment }
  let w1 := { w with verification := v' }
  if w1.profiles.any (fun p => p.user_id = w1.user_id) then
    (w1, some ApproveError.integrityError)
  else
    let profile : RestaurantProfile := {
      user_id := w1.user_id
      name := v'.restaurant_name
      description := v'.description
      address := v'.address
      phone := v'.phone
      email := if v'.email ≠ "" then v'.email else w1.user_email }
    let w2 := { w1 with
      profiles := w1.profiles ++ [profile]
      settings_for := w1.settings_for ++ [w1.user_id]
      is_restaurant_owner := true }
    (w2, none)

/-- The cleaned data of `RestaurantVerificationForm`
(verification/forms.py lines 6-122): fields `restaurant_name`, `address`,
`phone`, `email`, `description`. -/
structure VerificationFormData where
  restaurant_name : String
  address : String
  phone : String
  email : String
  description : String
deriving DecidableEq, Repr

/-- Python's `str.strip()`: removes leading and trailing whitespace.
Implemented structurally (rather than via `String.trim`) so that concrete
instances evaluate. -/
def pyStrip (s : String) : String :=
  ⟨((s.data.dropWhile Char.isWhitespace).reverse.dropWhile Char.isWhitespace).reverse⟩

/-- What the form's `clean_restaurant_name` / `clean_address` / `clean_phone`
guarantee of cleaned data (verification/forms.py lines 97-122): each raises a
validation error when the stripped value is empty, so validated data has
non-blank stripped name, address and phone. -/
def ValidCleaned (d : VerificationFormData) : Prop :=
  pyStrip d.restaurant_name ≠ "" ∧ pyStrip d.address ≠ "" ∧ pyStrip d.phone ≠ ""

instance (d : VerificationFormData) : Decidable (ValidCleaned d) := by
  unfold ValidCleaned; infer_instance

/-- Django's `construct_instance`, run during `ModelForm` validation
(`_post_clean`): copies the cleaned field values onto the bound model
instance.  Because the view's `get_verification()` returns the very instance
the form is bound to, the record the view re-reads inside `form_valid`
already carries the submitted values. -/
def applyForm (v : Verification) (d : VerificationFormData) : Verification :=
  { v with
    restaurant_name := d.restaurant_name
    address := d.address
    phone := d.phone
    email := d.email
    description := d.description }

/-- `RestaurantVerificationUpdateView.form_valid`
(verification/views.py lines 117-138).  `was_empty` is computed from
`self.get_verification()`, which aliases the form's instance, hence reads the
already-applied submitted values.  When not empty, the view sets
`status = pending` and clears `admin_comment` before saving. -/
def updateView_form_valid (v : Verification) (d : VerificationFormData) : Verification :=
  let inst := applyForm v d
  let was_empty :=
    pyStrip inst.restaurant_name = "" ∧ pyStrip inst.address = "" ∧
      pyStrip inst.phone = ""
  if was_empty then
    inst
  else
    { inst with status := VerificationStatus.pending, admin_comment := "" }

/-- `RestaurantVerificationUpdateView.dispatch` status guard
(verification/views.py lines 103-115): editing proceeds only from these
statuses. -/
def updateView_allowed (s : VerificationStatus) : Bool :=
  s = VerificationStatus.pending ∨ s = VerificationStatus.requires_changes ∨
    s = VerificationStatus.rejected

/-- The re-review marker comment written by
`RestaurantVerificationEditInfoView.form_valid` (verification/views.py
line 288). -/
def reReviewComment : String :=
  "Информация обновлена пользователем. Требуется повторная верификация."

/-- `RestaurantVerificationEditInfoView.form_valid`
(verification/views.py lines 267-293).  `current_data` is read from
`self.object`, which aliases the form's instance (already updated with the
submitted values).  `new_data` reads `cleaned_data.get('restaurant_address',
'')` and `cleaned_data.get('restaurant_phone', '')` — keys the form never
defines — so its address and phone entries are always the default `''`.
When the two dicts differ the view resets the status to `pending` and writes
the re-review marker. -/
def editInfoView_form_valid (v : Verification) (d : VerificationFormData) : Verification :=
  let inst := applyForm v d
  let current_data :=
    (inst.restaurant_name, inst.address, inst.phone, inst.email, inst.description)
  let new_data :=
    (d.restaurant_name, "", "", d.email, d.description)
  if current_data ≠ new_data then
    { inst with
      status := VerificationStatus.pending
      admin_comment := reReviewComment }
  else
    inst

/-! Concrete fixtures used by counterexamples and witnesses. -/

/-- A completed order used as a concrete test vehicle. -/
def sampleOrder : Order :=
  { order_number := "ORD-202501011200-AB12CD"
    qr_data := "rest_0123456789ab"
    status := OrderStatus.completed
    subtotal := 36
    tax_amount := 18/5
    service_amount := 9/5
    total_amount := 207/5
    payment_method := ""
    is_paid := false
    paid_at := none
    confirmed_at := some 1
    completed_at := some 2
    cancelled_at := none
    special_requests := "" }

/-- The snapshot entry written at order time for an option priced +2.00. -/
def exampleSnapshot : SelectedOption :=
  { id := 1, name := "Extra cheese", price_modifier := 2 }

/-- One order line: unit price 10.00, one option, quantity 3. -/
def exampleItem : OrderItem :=
  { quantity := 3, unit_price := 10, selected_options := [exampleSnapshot] }

/-- The dish's option list as it stood at order time. -/
def exampleDishOptions : List DishOption :=
  [{ id := 1, name := "Extra cheese", price_modifier := 2 }]

/-- The dish's option list after the owner later raises the option price. -/
def changedDishOptions : List DishOption :=
  [{ id := 1, name := "Extra cheese", price_modifier := 5 }]

/-- The same line with a different snapshotted `price_modifier` (999). -/
def exampleItemAltSnapshot : OrderItem :=
  { quantity := 3, unit_price := 10,
    selected_options := [{ id := 1, name := "Extra cheese", price_modifier := 999 }] }

/-- A user's pending verification, with no profile provisioned yet. -/
def freshWorld : World :=
  { verification :=
      { restaurant_name := "Cafe"
        address := "Main street 1"
        phone := "+79991234567"
        email := ""
        description := ""
        status := VerificationStatus.pending
        admin_comment := ""
        reviewed_at := none }
    user_id := 7
    user_email := "owner@example.com"
    is_restaurant_owner := false
    profiles := []
    settings_for := [] }

/-- An approved verification record. -/
def approvedVerification : Verification :=
  { restaurant_name := "Cafe"
    address := "Main street 1"
    phone := "+79991234567"
    email := ""
    description := ""
    status := VerificationStatus.approved
    admin_comment := ""
    reviewed_at := some 3 }

/-- A rejected verification record awaiting resubmission. -/
def rejectedVerification : Verification :=
  { restaurant_name := "Cafe"
    address := "Main street 1"
    phone := "+79991234567"
    email := ""
    description := ""
    status := VerificationStatus.rejected
    admin_comment := "Fix the address"
    reviewed_at := some 3 }

/-- Form data identical to the record's current values. -/
def identicalResubmission : VerificationFormData :=
  { restaurant_name := "Cafe"
    address := "Main street 1"
    phone := "+79991234567"
    email := ""
    description := "" }

/-! Claim theorems. -/

/-- Claim C1, counterexample: on an order in the terminal status `completed`,
`update_status` does not fail and does not leave the order unchanged — it
overwrites the status with `pending`.  The source performs no
allowed-next-states check and defines no `InvalidTransition` error. -/
theorem C1_counterexample :
    sampleOrder.status = OrderStatus.completed ∧
    (sampleOrder.update_status OrderStatus.pending 5).status = OrderStatus.pending ∧
    OrderStatus.pending ≠ OrderStatus.completed := by
  decide

/-- Claim C1, amended: `Order.update_status` performs no transition
validation at all; for every order (whatever its current status, terminal
ones included) and every new status it succeeds and sets the status to the
requested value. -/
theorem C1_update_status_never_rejects (o : Order) (s : OrderStatus) (now : Nat) :
    (o.update_status s now).status = s := by
  unfold Order.update_status
  split_ifs <;> rfl

/-- Claim C2: the pricing calculator returns `tax_amount = s*t/100`,
`service_amount = s*c/100` and `total = s + tax + service` exactly, and on
the spec's example (one item, unit price 10.00, one +2.00 option, quantity 3,
tax rate 10, service charge 5) yields subtotal 36.00, tax 3.60, service 1.80,
total 41.40. -/
theorem C2_pricing_correct (s t c : ℚ) :
    (calculate_order_total s t c).tax_amount = s * t / 100 ∧
    (calculate_order_total s t c).service_amount = s * c / 100 ∧
    (calculate_order_total s t c).total = s + s * t / 100 + s * c / 100 ∧
    exampleItem.get_total_price exampleDishOptions = 36 ∧
    (calculate_order_total (exampleItem.get_total_price exampleDishOptions) 10 5).subtotal
      = 36 ∧
    (calculate_order_total (exampleItem.get_total_price exampleDishOptions) 10 5).tax_amount
      = 3.6 ∧
    (calculate_order_total (exampleItem.get_total_price exampleDishOptions) 10 5).service_amount
      = 1.8 ∧
    (calculate_order_total (exampleItem.get_total_price exampleDishOptions) 10 5).total
      = 41.4 := by
  have hexample : exampleItem.get_total_price exampleDishOptions = 36 := by
    simp [OrderItem.get_total_price, OrderItem.get_options_price,
      exampleItem, exampleDishOptions, exampleSnapshot, List.find?]
    norm_num
  refine ⟨?_, ?_, ?_, hexample, ?_, ?_, ?_, ?_⟩ <;>
    simp [calculate_order_total, hexample] <;> ring_nf

/-- Claim C5, counterexample: after the dish's option price is changed from
2.00 to 5.00, the item's total price becomes (10+5)*3 = 45, not the
snapshot-based (10+2)*3 = 36: `get_total_price` reads the dish's current
option prices, not the values snapshotted in `selected_options`. -/
theorem C5_counterexample :
    exampleItem.get_total_price changedDishOptions = 45 ∧
    (exampleItem.unit_price +
        (exampleItem.selected_options.map SelectedOption.price_modifier).sum) *
        exampleItem.quantity = 36 ∧
    (45 : ℚ) ≠ 36 := by
  refine ⟨?_, ?_, by norm_num⟩
  · simp [OrderItem.get_total_price, OrderItem.get_options_price,
      exampleItem, changedDishOptions, exampleSnapshot, List.find?]
    norm_num
  · simp [exampleItem, exampleSnapshot]
    norm_num

/-- Claim C5, amended: an item's total price is
`(unit_price + options price) * quantity` where the options price is looked
up in the dish's CURRENT option list by snapshot id (missing ids contribute
0); the snapshotted `price_modifier` values are never read, so two items
agreeing on unit price, quantity and selected option ids have the same total
whatever modifiers their snapshots carry. -/
theorem C5_total_ignores_snapshot_modifiers (item1 item2 : OrderItem)
    (opts : List DishOption)
    (hu : item1.unit_price = item2.unit_price)
    (hq : item1.quantity = item2.quantity)
    (hid : item1.selected_options.map SelectedOption.id =
      item2.selected_options.map SelectedOption.id) :
    item1.get_total_price opts = item2.get_total_price opts := by
  have key : ∀ l : List SelectedOption,
      l.map (fun sel =>
        match opts.find? (fun opt => opt.id = sel.id) with
        | some opt => opt.price_modifier
        | none => 0) =
      (l.map SelectedOption.id).map (fun i =>
        match opts.find? (fun opt => opt.id = i) with
        | some opt => opt.price_modifier
        | none => 0) := by
    intro l
    rw [List.map_map]
    rfl
  unfold OrderItem.get_total_price OrderItem.get_options_price
  rw [hu, hq, key, key, hid]

/-- Claim C5, amended, at a concrete input: two items identical but for the
snapshotted modifier (2 vs 999) price the same against the current options. -/
theorem C5_witness :
    exampleItem.unit_price = exampleItemAltSnapshot.unit_price ∧
    exampleItem.quantity = exampleItemAltSnapshot.quantity ∧
    exampleItem.selected_options.map SelectedOption.id =
      exampleItemAltSnapshot.selected_options.map SelectedOption.id ∧
    exampleItem.get_total_price changedDishOptions =
      exampleItemAltSnapshot.get_total_price changedDishOptions :=
  ⟨rfl, rfl, by decide,
    C5_total_ignores_snapshot_modifiers exampleItem exampleItemAltSnapshot
      changedDishOptions rfl rfl (by decide)⟩

/-- Claim C6: `update_status` sets the status, stamps `confirmed_at` exactly
on a pending→confirmed move, `completed_at` exactly when the new status is
`completed`, `cancelled_at` exactly when it is `cancelled`, and leaves every
other column — the money amounts, the payment fields, identity and requests —
untouched. -/
theorem C6_update_status_frame (o : Order) (s : OrderStatus) (now : Nat) :
    (o.update_status s now).status = s ∧
    (o.update_status s now).confirmed_at =
      (if s = OrderStatus.confirmed ∧ o.status = OrderStatus.pending
        then some now else o.confirmed_at) ∧
    (o.update_status s now).completed_at =
      (if s = OrderStatus.completed then some now else o.completed_at) ∧
    (o.update_status s now).cancelled_at =
      (if s = OrderStatus.cancelled then some now else o.cancelled_at) ∧
    (o.update_status s now).subtotal = o.subtotal ∧
    (o.update_status s now).tax_amount = o.tax_amount ∧
    (o.update_status s now).service_amount = o.service_amount ∧
    (o.update_status s now).total_amount = o.total_amount ∧
    (o.update_status s now).payment_method = o.payment_method ∧
    (o.update_status s now).is_paid = o.is_paid ∧
    (o.update_status s now).paid_at = o.paid_at ∧
    (o.update_status s now).order_number = o.order_number ∧
    (o.update_status s now).qr_data = o.qr_data ∧
    (o.update_status s now).special_requests = o.special_requests := by
  unfold Order.update_status
  split_ifs with h1 h2 h3 <;> simp_all

/-- Claim C7, counterexample: two `mark_as_paid` calls with the same method
at different instants do not leave `paid_at` unchanged — the second call
overwrites it with the later time. -/
theorem C7_counterexample :
    ((sampleOrder.mark_as_paid "cash" 1).mark_as_paid "cash" 2).paid_at ≠
      (sampleOrder.mark_as_paid "cash" 1).paid_at := by
  decide

/-- Claim C7, amended: a second `mark_as_paid` with the same method raises no
error and leaves `is_paid` and `payment_method` exactly as the first call
did, but always refreshes `paid_at` to the current time; the double call is a
true no-op only when both calls observe the same clock value. -/
theorem C7_mark_as_paid_second_call (o : Order) (m : String) (t1 t2 : Nat) :
    (o.mark_as_paid m t1).mark_as_paid m t2 =
      { o.mark_as_paid m t1 with paid_at := some t2 } := by
  unfold Order.mark_as_paid
  split_ifs <;> rfl

/-- Claim C3, counterexample: calling `approve` a second time (the user's
profile already exists) fails with the database `IntegrityError` raised by
the one-to-one constraint, not with `AlreadyProvisioned` — no such error
exists in the source. -/
theorem C3_counterexample :
    (approve (approve freshWorld "ok" 1).1 "again" 2).2 =
      some ApproveError.integrityError ∧
    some ApproveError.integrityError ≠ some ApproveError.alreadyProvisioned := by
  decide

/-- Claim C3, amended: when the user already owns a profile, `approve` fails
with the database `IntegrityError` from the unique constraint on
`RestaurantProfile.user` (not `AlreadyProvisioned`), and no second profile is
created — the profile table is unchanged; the one-to-one invariant is upheld
by the database, not by the method. -/
theorem C3_second_approve_integrity (w : World) (c : String) (t : Nat)
    (h : w.profiles.any (fun p => p.user_id = w.user_id) = true) :
    (approve w c t).2 = some ApproveError.integrityError ∧
    (approve w c t).1.profiles = w.profiles := by
  unfold approve
  simp [h]

/-- Claim C3, amended, at a concrete input: a second `approve` after a
successful first one hits the constraint and adds no profile. -/
theorem C3_witness :
    ((approve freshWorld "ok" 1).1.profiles.any
        (fun p => p.user_id = (approve freshWorld "ok" 1).1.user_id) = true) ∧
    ((approve (approve freshWorld "ok" 1).1 "again" 2).2 =
        some ApproveError.integrityError ∧
      (approve (approve freshWorld "ok" 1).1 "again" 2).1.profiles =
        (approve freshWorld "ok" 1).1.profiles) :=
  ⟨by decide, C3_second_approve_integrity (approve freshWorld "ok" 1).1 "again" 2 (by decide)⟩

/-- Claim C4, counterexample: `approve` is not atomic.  On a verification
whose user already owns a profile, the call fails (provisioning is refused)
and yet the verification record in the persisted state has been rewritten:
its `admin_comment` now carries the second call's comment instead of the
first's, and `reviewed_at` the second call's time. -/
theorem C4_counterexample :
    ((approve (approve freshWorld "ok" 1).1 "again" 2).2.isSome = true) ∧
    (approve (approve freshWorld "ok" 1).1 "again" 2).1.verification.admin_comment
      = "again" ∧
    (approve (approve freshWorld "ok" 1).1 "again" 2).1.verification.reviewed_at
      = some 2 ∧
    (approve freshWorld "ok" 1).1.verification.admin_comment = "ok" := by
  decide

/-- Claim C4, amended: `approve` runs without a transaction, each write
committing on its own.  The status write (`status = approved`,
`reviewed_at = now`, `admin_comment`) always persists — also when the
subsequent profile provisioning fails on the unique constraint — and the
call errors exactly when a profile for the user already exists. -/
theorem C4_approve_partial_writes (w : World) (c : String) (t : Nat) :
    (approve w c t).1.verification.status = VerificationStatus.approved ∧
    (approve w c t).1.verification.reviewed_at = some t ∧
    (approve w c t).1.verification.admin_comment = c ∧
    ((approve w c t).2.isSome = true ↔
      w.profiles.any (fun p => p.user_id = w.user_id) = true) := by
  unfold approve
  by_cases h : w.profiles.any (fun p => p.user_id = w.user_id) = true <;> simp [h]

/-- Claim C8: at the failing input — an approved application resubmitted with
values identical in all five fields — the edit-info view still resets the
status to `pending` and writes the re-review marker, because `new_data` is
built from the cleaned-data keys `restaurant_address` and `restaurant_phone`,
which the form never defines, so the comparison sees `''` against the real
address and phone and always reports a difference. -/
theorem C8_identical_edit_still_resets :
    applyForm approvedVerification identicalResubmission = approvedVerification ∧
    (editInfoView_form_valid approvedVerification identicalResubmission).status
      = VerificationStatus.pending ∧
    (editInfoView_form_valid approvedVerification identicalResubmission).admin_comment
      = reReviewComment := by
  decide

/-- Claim C9: from `rejected` or `requires_changes`, saving the edit form
with validated data (even data identical to the record) updates the
application fields, resets the status to `pending` and clears
`admin_comment`. -/
theorem C9_resubmit_resets (v : Verification) (d : VerificationFormData)
    (_hs : v.status = VerificationStatus.rejected ∨
      v.status = VerificationStatus.requires_changes)
    (hd : ValidCleaned d) :
    (updateView_form_valid v d).status = VerificationStatus.pending ∧
    (updateView_form_valid v d).admin_comment = "" ∧
    (updateView_form_valid v d).restaurant_name = d.restaurant_name ∧
    (updateView_form_valid v d).address = d.address ∧
    (updateView_form_valid v d).phone = d.phone ∧
    (updateView_form_valid v d).email = d.email ∧
    (updateView_form_valid v d).description = d.description := by
  obtain ⟨h1, h2, h3⟩ := hd
  unfold updateView_form_valid applyForm
  rw [if_neg]
  · exact ⟨rfl, rfl, rfl, rfl, rfl, rfl, rfl⟩
  · intro hcontra
    exact h1 hcontra.1

/-- Claim C9, at a concrete input: a rejected application resubmitted with
identical (valid) data lands in `pending` with the admin comment cleared. -/
theorem C9_witness :
    (rejectedVerification.status = VerificationStatus.rejected ∨
      rejectedVerification.status = VerificationStatus.requires_changes) ∧
    ValidCleaned identicalResubmission ∧
    ((updateView_form_valid rejectedVerification identicalResubmission).status
        = VerificationStatus.pending ∧
      (updateView_form_valid rejectedVerification identicalResubmission).admin_comment
        = "" ∧
      (updateView_form_valid rejectedVerification identicalResubmission).restaurant_name
        = identicalResubmission.restaurant_name ∧
      (updateView_form_valid rejectedVerification identicalResubmission).address
        = identicalResubmission.address ∧
      (updateView_form_valid rejectedVerification identicalResubmission).phone
        = identicalResubmission.phone ∧
      (updateView_form_valid rejectedVerification identicalResubmission).email
        = identicalResubmission.email ∧
      (updateView_form_valid rejectedVerification identicalResubmission).description
        = identicalResubmission.description) :=
  ⟨Or.inl rfl, by decide,
    C9_resubmit_resets rejectedVerification identicalResubmission (Or.inl rfl) (by decide)⟩

/-- Claim C10: `Order.save` preserves an existing identity — a non-blank
`order_number` is never regenerated, and a non-blank `qr_data` is never
overwritten by the restaurant's value. -/
theorem C10_save_preserves_identity (o : Order) (gen qr : String)
    (h1 : o.order_number ≠ "") :
    (o.save gen qr).order_number = o.order_number ∧
    (o.qr_data ≠ "" → (o.save gen qr).qr_data = o.qr_data) := by
  unfold Order.save
  rw [if_neg h1]
  constructor
  · split_ifs <;> rfl
  · intro h2
    rw [if_neg h2]

/-- Claim C10, at a concrete input: saving an order that already carries a
number and QR data changes neither. -/
theorem C10_witness :
    sampleOrder.order_number ≠ "" ∧
    ((sampleOrder.save "ORD-NEW" "rest_other").order_number
        = sampleOrder.order_number ∧
      (sampleOrder.qr_data ≠ "" →
        (sampleOrder.save "ORD-NEW" "rest_other").qr_data = sampleOrder.qr_data)) :=
  ⟨by decide, C10_save_preserves_identity sampleOrder "ORD-NEW" "rest_other" (by decide)⟩

end QRmenu
